import Mathlib

/-!
# Smart Match — facet extraction pipeline, shallow embedding

A shallow embedding of the facet-extraction service:

* `src/services/facet_parser.py` — the `FacetResponse` field table, the
  layered `FacetParser.parse_query` interpretation (strict parse, fenced-block
  repair, exhaustion), `parse_query_with_metadata`, `_detect_categories`;
* `src/api.py` — the direct-configuration endpoint
  `configure_facets_directly` and the batch loop `parse_queries_batch`.

JSON documents are modelled by an inductive `Json` value; raw model responses
are `List Char`.  Numeric literals are modelled as integers: no sentence under
verification involves a fractional constant, and an integer literal is a valid
value for both the integer- and the float-typed facet fields.
-/

namespace SmartMatch

/-- JSON values, as produced by `json.loads` / emitted by the model. -/
inductive Json where
  | null : Json
  | bool (b : Bool) : Json
  | num (n : Int) : Json
  | str (s : String) : Json
  | arr (elems : List Json) : Json
  | obj (fields : List (String × Json)) : Json

/-- Python `v is None` on a JSON value. -/
def Json.isNull : Json → Bool
  | .null => true
  | _ => false

/-- A facets mapping: ordered key-value pairs, as a Python `dict` built by
insertion (keys unique, first-insertion order). -/
abbrev Facets := List (String × Json)

/-! ## Character-list utilities (Python string operations) -/

/-- JSON whitespace accepted between tokens by `json.loads`. -/
def isJsonWs (c : Char) : Bool :=
  c == ' ' || c == '\t' || c == '\n' || c == '\r'

/-- Python `str.strip` whitespace (space, tab, newline, CR, FF, VT). -/
def isPyWs (c : Char) : Bool :=
  c == ' ' || c == '\t' || c == '\n' || c == '\r' ||
  c == Char.ofNat 11 || c == Char.ofNat 12

/-- Python `content.strip()`. -/
def pyStrip (cs : List Char) : List Char :=
  ((cs.dropWhile isPyWs).reverse.dropWhile isPyWs).reverse

/-- Python `needle in hay` for strings. -/
def containsSub (hay needle : List Char) : Bool :=
  if needle.isPrefixOf hay then true
  else
    match hay with
    | [] => false
    | _ :: t => containsSub t needle

/-- The substring of `hay` after the first occurrence of `needle`
(`[]` when `needle` does not occur). -/
def afterFirst (hay needle : List Char) : List Char :=
  if needle.isPrefixOf hay then hay.drop needle.length
  else
    match hay with
    | [] => []
    | _ :: t => afterFirst t needle

/-- The prefix of `hay` before the first occurrence of `needle`
(all of `hay` when `needle` does not occur). -/
def beforeFirst (hay needle : List Char) : List Char :=
  if needle.isPrefixOf hay then []
  else
    match hay with
    | [] => []
    | c :: t => c :: beforeFirst t needle

/-! ## A `json.loads` model

Fuel-indexed recursive-descent over the character list.  Strings support the
common escapes; numbers are (optionally signed) integer literals; the value
must be followed by whitespace only. -/

/-- The character denoted by a backslash escape, when supported. -/
def escChar (e : Char) : Option Char :=
  if e == '"' then some '"'
  else if e == '\\' then some '\\'
  else if e == '/' then some '/'
  else if e == 'n' then some '\n'
  else if e == 't' then some '\t'
  else if e == 'r' then some '\r'
  else none

/-- Parse a JSON string body after the opening quote; `esc` records a pending
backslash, `acc` holds the consumed characters in reverse. -/
def pStrAux : List Char → Bool → List Char → Option (String × List Char)
  | [], _, _ => none
  | c :: rest, true, acc =>
    match escChar c with
    | some d => pStrAux rest false (d :: acc)
    | none => none
  | c :: rest, false, acc =>
    if c == '"' then some (String.mk acc.reverse, rest)
    else if c == '\\' then pStrAux rest true acc
    else pStrAux rest false (c :: acc)

/-- Parse one or more decimal digits into a `Nat`. -/
def pNatAux : List Char → Nat → Nat → (Nat × Nat × List Char)
  | [], n, k => (n, k, [])
  | c :: rest, n, k =>
    if c.isDigit then pNatAux rest (n * 10 + (c.toNat - 48)) (k + 1)
    else (n, k, c :: rest)

/-- Parse an integer JSON number (optional leading minus). -/
def pNum (cs : List Char) : Option (Json × List Char) :=
  match cs with
  | '-' :: rest =>
    match pNatAux rest 0 0 with
    | (_, 0, _) => none
    | (n, _ + 1, r) => some (Json.num (-(n : Int)), r)
  | _ =>
    match pNatAux cs 0 0 with
    | (_, 0, _) => none
    | (n, _ + 1, r) => some (Json.num (n : Int), r)

/-- Python `dict` insertion: replace the value in place if the key exists,
else append. -/
def insertField (fs : List (String × Json)) (k : String) (v : Json) :
    List (String × Json) :=
  if fs.any (fun p => p.1 == k) then
    fs.map (fun p => if p.1 == k then (k, v) else p)
  else fs ++ [(k, v)]

mutual

/-- Parse one JSON value (leading whitespace allowed). -/
def pVal : Nat → List Char → Option (Json × List Char)
  | 0, _ => none
  | fuel + 1, cs =>
    match (cs.dropWhile isJsonWs) with
    | [] => none
    | c :: rest =>
      if c == '"' then
        (pStrAux rest false []).map (fun p => (Json.str p.1, p.2))
      else if c == 't' then
        if "rue".toList.isPrefixOf rest then
          some (Json.bool true, rest.drop 3)
        else none
      else if c == 'f' then
        if "alse".toList.isPrefixOf rest then
          some (Json.bool false, rest.drop 4)
        else none
      else if c == 'n' then
        if "ull".toList.isPrefixOf rest then some (Json.null, rest.drop 3)
        else none
      else if c == '[' then
        match (rest.dropWhile isJsonWs) with
        | ']' :: r => some (Json.arr [], r)
        | r => pElems fuel r []
      else if c == '{' then
        match (rest.dropWhile isJsonWs) with
        | '}' :: r => some (Json.obj [], r)
        | r => pMembers fuel r []
      else if c == '-' || c.isDigit then pNum (c :: rest)
      else none

/-- Parse the elements of a non-empty array (accumulator reversed). -/
def pElems : Nat → List Char → List Json → Option (Json × List Char)
  | 0, _, _ => none
  | fuel + 1, cs, acc =>
    match pVal fuel cs with
    | none => none
    | some (v, r) =>
      match (r.dropWhile isJsonWs) with
      | ',' :: r2 => pElems fuel r2 (v :: acc)
      | ']' :: r2 => some (Json.arr (v :: acc).reverse, r2)
      | _ => none

/-- Parse the members of a non-empty object, with `dict` insertion
semantics. -/
def pMembers : Nat → List Char → List (String × Json) →
    Option (Json × List Char)
  | 0, _, _ => none
  | fuel + 1, cs, acc =>
    match (cs.dropWhile isJsonWs) with
    | '"' :: rest =>
      match pStrAux rest false [] with
      | none => none
      | some (k, r) =>
        match (r.dropWhile isJsonWs) with
        | ':' :: r2 =>
          match pVal fuel r2 with
          | none => none
          | some (v, r3) =>
            match (r3.dropWhile isJsonWs) with
            | ',' :: r4 => pMembers fuel r4 (insertField acc k v)
            | '}' :: r4 => some (Json.obj (insertField acc k v), r4)
            | _ => none
        | _ => none
    | _ => none

end

/-- `json.loads`: parse the whole text as a single JSON value, allowing only
surrounding whitespace. -/
def parseJsonText (cs : List Char) : Option Json :=
  match pVal (cs.length + 1) cs with
  | some (j, rest) => if (rest.dropWhile isJsonWs).isEmpty then some j else none
  | none => none

end SmartMatch

namespace SmartMatch

/-! ## Fenced-block extraction (`FacetParser.parse_query`, repair branch)

`content.split("```json")[1].split("```")[0]` equals: the part of `content`
after the first occurrence of the json-labeled fence, cut before the next
triple-backtick fence; similarly for the generic branch. -/

/-- The json-labeled fence marker. -/
def fenceJson : List Char := "```json".toList

/-- The generic fence marker. -/
def fenceAny : List Char := "```".toList

/-- The repair-layer block extraction: a json-labeled fenced block first, then
any generic fenced block, else the content itself. -/
def extractContent (content : List Char) : List Char :=
  if containsSub content fenceJson then
    beforeFirst (afterFirst content fenceJson) fenceAny
  else if containsSub content fenceAny then
    beforeFirst (afterFirst content fenceAny) fenceAny
  else content

/-! ## The `FacetResponse` field table (`src/services/facet_parser.py`)

One entry per pydantic field, with its declared semantic type. -/

/-- Semantic types declared by the `FacetResponse` fields. -/
inductive FieldType where
  | fstr : FieldType
  | ffloat : FieldType
  | fint : FieldType
  | fbool : FieldType
  | fstrList : FieldType
  | fdictFloat : FieldType
deriving DecidableEq

/-- The declared field/type table of `FacetResponse`, in source order. -/
def facetFieldTypes : List (String × FieldType) :=
  [("brand", .fstr), ("model", .fstr), ("cat_id", .fstr), ("price", .ffloat),
   ("price_ranges", .fdictFloat), ("backbox_grade", .fstr),
   ("storage", .fstr), ("color", .fstr), ("screen_size", .fstr),
   ("memory", .fstr), ("processor", .fstr), ("processor_speed", .fstr),
   ("network", .fstrList), ("connectivity", .fstrList), ("camera", .fstr),
   ("dual_sim", .fbool), ("sim_lock", .fbool), ("battery_capacity", .fstr),
   ("os", .fstr), ("touch_bar", .fbool), ("touch_id", .fbool),
   ("face_id", .fbool), ("retina", .fbool), ("keyboard_type", .fstr),
   ("keyboard_language", .fstr),
   ("graphic_card", .fstr), ("processor_type", .fstr),
   ("storage_type", .fstr), ("storage_ssd", .fstr), ("touchscreen", .fbool),
   ("webcam", .fbool), ("hdmi_input", .fbool), ("hdmi_output", .fbool),
   ("screen_format", .fstr), ("screen_type", .fstr),
   ("coffee_machine_type", .fstr), ("washing_machine_type", .fstr),
   ("fridge_type", .fstr), ("energy_class", .fstr), ("capacity", .fstr),
   ("power", .fstr), ("dishwasher_type", .fstr), ("oven_type", .fstr),
   ("hob_type", .fstr),
   ("console_type", .fstr), ("compatible_gaming_console", .fstrList),
   ("pegi", .fstr), ("video_game_genre", .fstr),
   ("controllers_number", .fint),
   ("warranty", .fstr), ("deals_type", .fstr), ("special_offer_type", .fstr),
   ("year_date_release", .fstr), ("generation", .fstr), ("vintage", .fbool),
   ("limited_edition", .fbool),
   ("merchant_id", .fstr), ("deduplication_id", .fstr),
   ("is_cheapest_listing", .fbool), ("publication_state", .fstr),
   ("backbox", .fbool)]

/-- The declared semantic type of a facet key, if the key is a
`FacetResponse` field. -/
def lookupType (k : String) : Option FieldType :=
  (facetFieldTypes.find? (fun p => p.1 == k)).map Prod.snd

/-- Whether a JSON value satisfies a declared semantic type. -/
def typeMatches : FieldType → Json → Bool
  | .fstr, .str _ => true
  | .ffloat, .num _ => true
  | .fint, .num _ => true
  | .fbool, .bool _ => true
  | .fstrList, .arr xs =>
    xs.all (fun j => match j with | .str _ => true | _ => false)
  | .fdictFloat, .obj fs =>
    fs.all (fun p => match p.2 with | .num _ => true | _ => false)
  | _, _ => false

/-! ## Response interpretation (`FacetParser.parse_query`)

Layer 1 below stands for `PydanticOutputParser.parse` followed by
`parsed_response.dict(exclude_none=True)`.  The third-party parse step is not
part of this repository; following the contract stated for the strict layer
(the text must be syntactically valid and every present key must satisfy its
declared semantic type), it is modelled as: the raw text must be a JSON
object, every key declared in `FacetResponse` must carry a value of its
declared type (or null), keys outside the table are dropped (pydantic default
for extra fields), and `exclude_none` removes the null-valued keys. -/

/-- Layer 1, the strict structured parse. -/
def strictParse (raw : List Char) : Option Facets :=
  match parseJsonText raw with
  | some (Json.obj fs) =>
    if fs.all (fun p =>
        match lookupType p.1 with
        | some t => p.2.isNull || typeMatches t p.2
        | none => true) then
      some (fs.filter (fun p => (lookupType p.1).isSome && !p.2.isNull))
    else none
  | _ => none

/-- Layer 2, the repair branch: fenced-block extraction, `strip`,
`json.loads`, then the `.items()` comprehension dropping `None` values (a
non-object value makes `.items()` raise, hence `none`).  No per-key type
check is performed here. -/
def repairParse (raw : List Char) : Option Facets :=
  match parseJsonText (pyStrip (extractContent raw)) with
  | some (Json.obj fs) => some (fs.filter (fun p => !p.2.isNull))
  | _ => none

/-- The terminal `ValueError`: its message interpolates the original raw
response text and the strict-layer failure reason. -/
structure InterpretationError where
  raw : List Char
  reason : String
deriving DecidableEq

/-- `FacetParser.parse_query` applied to a raw model response: strict parse,
then fenced-block repair, then failure. -/
def interpret (raw : List Char) : Except InterpretationError Facets :=
  match strictParse raw with
  | some fs => Except.ok fs
  | none =>
    match repairParse raw with
    | some fs => Except.ok fs
    | none => Except.error ⟨raw, "Failed to parse LLM response"⟩

/-! ## Category detection (`FacetParser._detect_categories`) -/

/-- Mobile/electronics indicator keys. -/
def mobile_fields : List String :=
  ["storage", "color", "screen_size", "network", "camera", "os",
   "battery_capacity"]

/-- Computing indicator keys. -/
def computing_fields : List String :=
  ["graphic_card", "processor_type", "storage_ssd", "touchscreen"]

/-- Home-appliance indicator keys. -/
def appliance_fields : List String :=
  ["energy_class", "capacity", "coffee_machine_type", "washing_machine_type"]

/-- Gaming indicator keys. -/
def gaming_fields : List String :=
  ["console_type", "pegi", "video_game_genre", "controllers_number"]

/-- Whether a facets mapping carries the key `k` (Python `field in facets`). -/
def hasKey (facets : Facets) (k : String) : Bool :=
  facets.any (fun p => p.1 == k)

/-- `FacetParser._detect_categories`. -/
def detectCategories (facets : Facets) : List String :=
  let categories :=
    (if mobile_fields.any (hasKey facets) then ["mobile_electronics"] else [])
    ++ (if computing_fields.any (hasKey facets) then ["computing"] else [])
    ++ (if appliance_fields.any (hasKey facets) then ["home_appliances"]
        else [])
    ++ (if gaming_fields.any (hasKey facets) then ["gaming"] else [])
  if categories.isEmpty then ["general"] else categories

end SmartMatch

namespace SmartMatch

/-! ## The per-query pipeline (`Controller.parse_query`,
`FacetParser.parse_query_with_metadata`)

The LLM round trip (`self.llm(formatted_prompt)`) is the only non-local call;
it is abstracted as a function from the query to either the raw response text
or a completion failure. -/

/-- A per-query failure: the completion call raised, or interpretation was
exhausted. -/
inductive PipelineError where
  | completion (msg : String) : PipelineError
  | interpretation (e : InterpretationError) : PipelineError
deriving DecidableEq

/-- The completion backend, abstracted: raw model text for a query, or a
completion failure. -/
abbrev Completion := List Char → Except String (List Char)

/-- `FacetParser.parse_query` end to end: complete, then interpret. -/
def parse_query (complete : Completion) (q : List Char) :
    Except PipelineError Facets :=
  match complete q with
  | Except.error msg => Except.error (PipelineError.completion msg)
  | Except.ok raw =>
    match interpret raw with
    | Except.ok fs => Except.ok fs
    | Except.error e => Except.error (PipelineError.interpretation e)

/-- The dictionary returned by `parse_query_with_metadata`. -/
structure ParsedQueryOutcome where
  query : List Char
  facets : Facets
  facet_count : Nat
  categories_detected : List String

/-- `FacetParser.parse_query_with_metadata`. -/
def parse_query_with_metadata (complete : Completion) (q : List Char) :
    Except PipelineError ParsedQueryOutcome :=
  match parse_query complete q with
  | Except.ok facets =>
    Except.ok ⟨q, facets, facets.length, detectCategories facets⟩
  | Except.error e => Except.error e

/-! ## Batch processing (`parse_queries_batch`, `src/api.py`) -/

/-- One entry of the batch `results` list. -/
inductive BatchItem where
  | okPlain (query : List Char) (facets : Facets) : BatchItem
  | okMeta (outcome : ParsedQueryOutcome) : BatchItem
  | failed (query : List Char) (e : PipelineError) : BatchItem

/-- The `success` flag of a batch item. -/
def BatchItem.isSuccess : BatchItem → Bool
  | .failed _ _ => false
  | _ => true

/-- The `query` field of a batch item. -/
def BatchItem.queryOf : BatchItem → List Char
  | .okPlain q _ => q
  | .okMeta o => o.query
  | .failed q _ => q

/-- The batch response envelope. -/
structure BatchResponse where
  success : Bool
  total : Nat
  results : List BatchItem

/-- The body of the batch loop for one query: the item appended to
`results`, with the per-query failure caught and recorded. -/
def batchItemFor (complete : Completion) (includeMetadata : Bool)
    (q : List Char) : BatchItem :=
  if includeMetadata then
    match parse_query_with_metadata complete q with
    | Except.ok r => BatchItem.okMeta r
    | Except.error e => BatchItem.failed q e
  else
    match parse_query complete q with
    | Except.ok fs => BatchItem.okPlain q fs
    | Except.error e => BatchItem.failed q e

/-- `parse_queries_batch`. -/
def parse_queries_batch (complete : Completion) (includeMetadata : Bool)
    (queries : List (List Char)) : BatchResponse :=
  { success := true
    total := queries.length
    results := queries.map (batchItemFor complete includeMetadata) }

/-! ## Direct configuration (`configure_facets_directly`, `src/api.py`) -/

/-- The schema file at `cfg.FACETS_CONFIG_PATH`: present with a parsed JSON
document, absent (`FileNotFoundError`), or unreadable (any other exception
while loading, e.g. malformed JSON). -/
inductive SchemaFile where
  | present (doc : Json) : SchemaFile
  | missing : SchemaFile
  | unreadable (msg : String) : SchemaFile

/-- Field access on a JSON object. -/
def getField : Json → String → Option Json
  | .obj fs, k => (fs.find? (fun p => p.1 == k)).map Prod.snd
  | _, _ => none

/-- The valid keys collected from the schema document: the `key` entries of
the elements of the top-level `facets` collection.  The source stores them in
a Python set and only ever consumes membership of string facet keys, so the
list of string-valued `key` entries is an equivalent model.  Elements that
are not JSON objects are skipped here; the claims below quantify only over
well-formed documents (`schemaDocOk`), on which the model and the source
agree. -/
def allValidKeys (doc : Json) : List String :=
  match getField doc "facets" with
  | some (Json.arr configs) =>
    configs.filterMap (fun c =>
      match getField c "key" with
      | some (Json.str k) => some k
      | _ => none)
  | _ => []

/-- A well-formed schema document: the top-level `facets` entry is a list of
JSON objects whose `key` entries, when present, are strings. -/
def schemaDocOk (doc : Json) : Bool :=
  match getField doc "facets" with
  | some (Json.arr configs) =>
    configs.all (fun c =>
      match c with
      | Json.obj fs =>
        fs.all (fun p =>
          p.1 != "key" || (match p.2 with | Json.str _ => true | _ => false))
      | _ => false)
  | _ => false

/-- The response model `DirectFacetsResponse`. -/
structure DirectFacetsResponse where
  success : Bool
  facets : Facets
  validation_errors : Option (List String)
  facet_count : Nat
  valid_facets : Option (List String)
  invalid_facets : Option (List String)

/-- The detail payload of the HTTP 400 raised on invalid facets. -/
structure BadRequestDetail where
  error : String
  invalid_facets : List String
  validation_errors : List String
deriving DecidableEq

/-- Outcome of the direct-configuration endpoint: a success response, or the
HTTP 400 failure. -/
inductive ConfigureResult where
  | ok (resp : DirectFacetsResponse) : ConfigureResult
  | badRequest (detail : BadRequestDetail) : ConfigureResult

/-- Whether the request succeeded (no HTTP 400). -/
def ConfigureResult.isOk : ConfigureResult → Bool
  | .ok _ => true
  | .badRequest _ => false

/-- A single-quote character, written by code point to mirror the quoting in
the source error message. -/
def sq : String := String.singleton (Char.ofNat 39)

/-- The per-key validation error message of the source. -/
def unknownKeyMsg (k : String) : String :=
  "Unknown facet key: " ++ sq ++ k ++ sq

/-- `configure_facets_directly`: classify the facet keys against the schema
when validation is requested, fail with HTTP 400 when any key is invalid,
otherwise echo the facets in a success response. -/
def configure_facets_directly (schemaFile : SchemaFile) (facets : Facets)
    (validate_schema : Bool) : ConfigureResult :=
  let facet_count := facets.length
  let ks := facets.map Prod.fst
  let vrec : List String × List String × List String :=
    if validate_schema then
      match schemaFile with
      | SchemaFile.present doc =>
        let keys := allValidKeys doc
        (ks.filter (fun k => keys.contains k),
         ks.filter (fun k => !keys.contains k),
         (ks.filter (fun k => !keys.contains k)).map unknownKeyMsg)
      | SchemaFile.missing => ([], [], ["Facets schema file not found"])
      | SchemaFile.unreadable msg =>
        ([], [], ["Schema validation error: " ++ msg])
    else ([], [], [])
  match vrec with
  | (valid_facets, invalid_facets, validation_errors) =>
    if validate_schema && !invalid_facets.isEmpty then
      ConfigureResult.badRequest
        ⟨"Invalid facet configuration", invalid_facets, validation_errors⟩
    else
      ConfigureResult.ok
        { success := true
          facets := facets
          validation_errors :=
            if validation_errors.isEmpty then none else some validation_errors
          facet_count := facet_count
          valid_facets := if validate_schema then some valid_facets else none
          invalid_facets :=
            if validate_schema then some invalid_facets else none }

end SmartMatch

namespace SmartMatch

/-- Whether a JSON value is an object (a Python `dict`, supporting
`.items()`). -/
def Json.isObj : Json → Bool
  | .obj _ => true
  | _ => false

/-! ## Concrete inputs referenced by the claims -/

/-- C1: the schema document with keys `brand`, `model`, `storage`. -/
def docC1 : Json :=
  Json.obj [("facets", Json.arr
    [Json.obj [("key", Json.str "brand")],
     Json.obj [("key", Json.str "model")],
     Json.obj [("key", Json.str "storage")]])]

/-- C1: the input facets `{"brand": "Apple", "color": "blue"}`. -/
def facetsC1 : Facets :=
  [("brand", Json.str "Apple"), ("color", Json.str "blue")]

/-- C2: a fenced response giving the boolean-typed key `dual_sim` a string
value. -/
def rawC2 : List Char :=
  "Sure!\n```json\n\x7b\"dual_sim\": \"maybe\"\x7d\n```".toList

/-- C3: a response carrying an empty-string facet value. -/
def rawC3 : List Char := "\x7b\"brand\": \"\"\x7d".toList

/-- C4: the plain-refusal response of the spec. -/
def rawC4 : List Char := "I cannot help with that.".toList

/-- C5: the fenced response of the spec. -/
def rawC5 : List Char :=
  "Here you go:\n```json\n\x7b\"brand\": \"Apple\"\x7d\n```".toList

/-- C10: a fenced block whose content is a JSON array, not an object. -/
def rawC10 : List Char := "```json\n[1, 2]\n```".toList

end SmartMatch

namespace SmartMatch

/-- C8: a stub completion backend that fails (rate limit) on the second
query of `queriesC8` and answers `{"brand": "Apple"}` otherwise. -/
def completeC8 : Completion := fun q =>
  if q = "Samsung Galaxy S21".toList then Except.error "rate limit"
  else Except.ok "\x7b\"brand\": \"Apple\"\x7d".toList

/-- C8: a batch of three queries; the second one triggers the failure. -/
def queriesC8 : List (List Char) :=
  ["iPhone 13".toList, "Samsung Galaxy S21".toList, "PS5 games".toList]

end SmartMatch

namespace SmartMatch

/-! ## Helper lemmas -/

/-- A strict-parse result never carries a null value. -/
theorem strictParse_no_null (raw : List Char) (fs : Facets)
    (h : strictParse raw = some fs) : ∀ p ∈ fs, p.2.isNull = false := by
  intro p hp
  unfold strictParse at h
  split at h
  · split at h
    · cases h
      have := (List.mem_filter.mp hp).2
      have := (Bool.and_eq_true _ _).mp this
      simpa using this.2
    · cases h
  · cases h

/-- A repair-layer result never carries a null value. -/
theorem repairParse_no_null (raw : List Char) (fs : Facets)
    (h : repairParse raw = some fs) : ∀ p ∈ fs, p.2.isNull = false := by
  intro p hp
  unfold repairParse at h
  split at h
  · cases h
    have := (List.mem_filter.mp hp).2
    simpa using this
  · cases h

/-- The outcome built by `parse_query_with_metadata` echoes the query. -/
theorem with_metadata_query_eq (complete : Completion) (q : List Char)
    (r : ParsedQueryOutcome)
    (h : parse_query_with_metadata complete q = Except.ok r) : r.query = q := by
  unfold parse_query_with_metadata at h
  split at h
  · cases h; rfl
  · cases h

/-- `parse_query_with_metadata` succeeds exactly when `parse_query` does. -/
theorem with_metadata_isOk (complete : Completion) (q : List Char) :
    (parse_query_with_metadata complete q).isOk =
      (parse_query complete q).isOk := by
  unfold parse_query_with_metadata
  cases hp : parse_query complete q <;> rfl

/-- The batch item built for a query echoes that query. -/
theorem batchItemFor_queryOf (complete : Completion) (m : Bool)
    (q : List Char) : (batchItemFor complete m q).queryOf = q := by
  unfold batchItemFor
  cases m with
  | false =>
    simp only [Bool.false_eq_true, if_false]
    cases parse_query complete q <;> rfl
  | true =>
    simp only [if_true]
    cases hp : parse_query_with_metadata complete q with
    | ok r =>
      simpa [BatchItem.queryOf] using with_metadata_query_eq complete q r hp
    | error e => rfl

/-- The batch item for a query is marked successful exactly when the
per-query pipeline succeeded. -/
theorem batchItemFor_isSuccess (complete : Completion) (m : Bool)
    (q : List Char) :
    (batchItemFor complete m q).isSuccess = (parse_query complete q).isOk := by
  unfold batchItemFor
  cases m with
  | false =>
    simp only [Bool.false_eq_true, if_false]
    cases parse_query complete q <;> rfl
  | true =>
    simp only [if_true]
    rw [← with_metadata_isOk]
    cases parse_query_with_metadata complete q <;> rfl

end SmartMatch

namespace SmartMatch

/-! ## Claim theorems -/

/-- C2, counterexample: a raw response consisting of prose followed by a
json-labeled fenced block whose object gives `dual_sim` the string value
`maybe` is rejected by the strict layer and accepted through the fenced-block
repair layer, yet the boolean-typed key `dual_sim` ends up holding a string — the
repair layer does not re-impose the declared semantic types. -/
theorem claim_C2_cex :
    strictParse rawC2 = none ∧
    interpret rawC2 = Except.ok [("dual_sim", Json.str "maybe")] ∧
    lookupType "dual_sim" = some FieldType.fbool ∧
    typeMatches FieldType.fbool (Json.str "maybe") = false :=
  ⟨rfl, rfl, rfl, rfl⟩

/-- C2, amended: a raw response accepted through the fenced-block repair
layer yields exactly the non-null key-value pairs of the fenced JSON object,
taken verbatim: the wrapper is stripped and null values are dropped, but the
per-key semantic types of the strict layer are not re-checked. -/
theorem claim_C2 (raw : List Char) (fs : List (String × Json))
    (h1 : strictParse raw = none)
    (h2 : parseJsonText (pyStrip (extractContent raw)) = some (Json.obj fs)) :
    interpret raw = Except.ok (fs.filter (fun p => !p.2.isNull)) := by
  unfold interpret repairParse
  rw [h1, h2]

/-- C2, witness: the amended statement at the counterexample input. -/
theorem claim_C2_witness :
    strictParse rawC2 = none ∧
    interpret rawC2 = Except.ok
      ([("dual_sim", Json.str "maybe")].filter (fun p => !p.2.isNull)) :=
  ⟨rfl, claim_C2 rawC2 [("dual_sim", Json.str "maybe")] rfl rfl⟩

/-- C3, counterexample: the raw response `{"brand": ""}` is accepted and the
returned mapping carries the key `brand` with an empty (though non-null)
value — empty values are not dropped. -/
theorem claim_C3_cex :
    interpret rawC3 = Except.ok [("brand", Json.str "")] ∧
    ("" : String).isEmpty = true :=
  ⟨rfl, rfl⟩

/-- C3, amended: for every raw model response the interpreter accepts
(through either layer), no key of the returned facets mapping has a null
value — null-valued keys are dropped during post-parse normalization; empty
(non-null) values, however, are retained. -/
theorem claim_C3 (raw : List Char) (facets : Facets)
    (h : interpret raw = Except.ok facets) :
    ∀ p ∈ facets, p.2.isNull = false := by
  unfold interpret at h
  cases hs : strictParse raw with
  | some fs =>
    rw [hs] at h
    cases h
    exact strictParse_no_null raw facets hs
  | none =>
    rw [hs] at h
    cases hr : repairParse raw with
    | some fs =>
      rw [hr] at h
      cases h
      exact repairParse_no_null raw facets hr
    | none =>
      rw [hr] at h
      cases h

/-- C3, witness: the amended statement at a response whose null-valued key
is dropped. -/
theorem claim_C3_witness :
    interpret "\x7b\"brand\": null, \"color\": \"blue\"\x7d".toList =
      Except.ok [("color", Json.str "blue")] ∧
    ∀ p ∈ ([("color", Json.str "blue")] : Facets), p.2.isNull = false :=
  ⟨rfl, claim_C3 "\x7b\"brand\": null, \"color\": \"blue\"\x7d".toList
    [("color", Json.str "blue")] rfl⟩

/-- C4: when both the strict parse and the fenced-block repair fail,
interpretation fails with the interpretation error carrying the original raw
text (and a failure reason), never an empty facets success. -/
theorem claim_C4 (raw : List Char)
    (h1 : strictParse raw = none) (h2 : repairParse raw = none) :
    interpret raw = Except.error ⟨raw, "Failed to parse LLM response"⟩ := by
  unfold interpret
  rw [h1, h2]

/-- C4, witness: the plain text `"I cannot help with that."` fails both
layers and raises. -/
theorem claim_C4_witness :
    strictParse rawC4 = none ∧ repairParse rawC4 = none ∧
    interpret rawC4 = Except.error ⟨rawC4, "Failed to parse LLM response"⟩ :=
  ⟨rfl, rfl, claim_C4 rawC4 rfl rfl⟩

/-- C5: the fenced response of the spec interprets to exactly
`{"brand": "Apple"}`, and whenever a json-labeled fence marker occurs in the
content, extraction uses the json-labeled block — the generic fenced block is
only tried when no json-labeled marker occurs. -/
theorem claim_C5 :
    interpret rawC5 = Except.ok [("brand", Json.str "Apple")] ∧
    ∀ content : List Char, containsSub content fenceJson = true →
      extractContent content =
        beforeFirst (afterFirst content fenceJson) fenceAny := by
  refine ⟨rfl, fun content h => ?_⟩
  unfold extractContent
  rw [h]
  rfl

/-- C5, witness: the ordering statement at the raw text of the spec. -/
theorem claim_C5_witness :
    containsSub rawC5 fenceJson = true ∧
    extractContent rawC5 = beforeFirst (afterFirst rawC5 fenceJson) fenceAny :=
  ⟨rfl, claim_C5.2 rawC5 rfl⟩

/-- C7: with the schema file missing, direct configuration still succeeds for
every input: the facets are echoed, no key is classified invalid (both
classification lists are empty — no validation was performed), and the
explicit warning entry is recorded in the validation errors. -/
theorem claim_C7 (facets : Facets) :
    configure_facets_directly SchemaFile.missing facets true =
      ConfigureResult.ok
        { success := true
          facets := facets
          validation_errors := some ["Facets schema file not found"]
          facet_count := facets.length
          valid_facets := some []
          invalid_facets := some [] } := rfl

/-- C9: whenever facet extraction succeeds, the with-metadata operation
returns the outcome whose `query` echoes the input, whose `facet_count` is
the number of keys of the returned facets, and whose categories are computed
by the category classifier from the facets. -/
theorem claim_C9 (complete : Completion) (q : List Char) (facets : Facets)
    (h : parse_query complete q = Except.ok facets) :
    parse_query_with_metadata complete q =
      Except.ok ⟨q, facets, facets.length, detectCategories facets⟩ := by
  unfold parse_query_with_metadata
  rw [h]

/-- C9, witness: the statement at a stub completion backend. -/
theorem claim_C9_witness :
    parse_query (fun _ => Except.ok "\x7b\"brand\": \"Apple\"\x7d".toList)
      "iphone".toList = Except.ok [("brand", Json.str "Apple")] ∧
    parse_query_with_metadata (fun _ => Except.ok "\x7b\"brand\": \"Apple\"\x7d".toList)
      "iphone".toList =
      Except.ok ⟨"iphone".toList, [("brand", Json.str "Apple")], 1,
        detectCategories [("brand", Json.str "Apple")]⟩ :=
  ⟨rfl, claim_C9 (fun _ => Except.ok "\x7b\"brand\": \"Apple\"\x7d".toList)
    "iphone".toList [("brand", Json.str "Apple")] rfl⟩

/-- C10: when the strict parse fails and the extracted fenced content parses
as JSON that is not an object, interpretation fails with the interpretation
error — the repair path never yields a non-mapping result. -/
theorem claim_C10 (raw : List Char) (j : Json)
    (h1 : strictParse raw = none)
    (h2 : parseJsonText (pyStrip (extractContent raw)) = some j)
    (h3 : j.isObj = false) :
    interpret raw = Except.error ⟨raw, "Failed to parse LLM response"⟩ := by
  have hr : repairParse raw = none := by
    unfold repairParse
    rw [h2]
    cases j <;> first | rfl | simp [Json.isObj] at h3
  unfold interpret
  rw [h1, hr]

/-- C10, witness: a fenced block holding the JSON array `[1, 2]`. -/
theorem claim_C10_witness :
    strictParse rawC10 = none ∧
    parseJsonText (pyStrip (extractContent rawC10)) =
      some (Json.arr [Json.num 1, Json.num 2]) ∧
    interpret rawC10 = Except.error ⟨rawC10, "Failed to parse LLM response"⟩ :=
  ⟨rfl, rfl, claim_C10 rawC10 (Json.arr [Json.num 1, Json.num 2]) rfl rfl rfl⟩

end SmartMatch

namespace SmartMatch

/-- C6: a category appears in the classifier output exactly when one of its
indicator keys is present in the facets; the output is `["general"]` exactly
when no indicator set intersects the facets; and the three concrete examples
of the spec hold. -/
theorem claim_C6 :
    (∀ facets : Facets,
      ("mobile_electronics" ∈ detectCategories facets ↔
        mobile_fields.any (hasKey facets) = true) ∧
      ("computing" ∈ detectCategories facets ↔
        computing_fields.any (hasKey facets) = true) ∧
      ("home_appliances" ∈ detectCategories facets ↔
        appliance_fields.any (hasKey facets) = true) ∧
      ("gaming" ∈ detectCategories facets ↔
        gaming_fields.any (hasKey facets) = true) ∧
      (detectCategories facets = ["general"] ↔
        (mobile_fields.any (hasKey facets) = false ∧
         computing_fields.any (hasKey facets) = false ∧
         appliance_fields.any (hasKey facets) = false ∧
         gaming_fields.any (hasKey facets) = false))) ∧
    detectCategories [("graphic_card", Json.str "RTX 3060")] = ["computing"] ∧
    detectCategories [] = ["general"] ∧
    detectCategories [("storage", Json.str "256GB"),
      ("console_type", Json.str "PS5")] = ["mobile_electronics", "gaming"] := by
  refine ⟨fun facets => ?_, rfl, rfl, rfl⟩
  cases hm : mobile_fields.any (hasKey facets) <;>
  cases hc : computing_fields.any (hasKey facets) <;>
  cases ha : appliance_fields.any (hasKey facets) <;>
  cases hg : gaming_fields.any (hasKey facets) <;>
  simp [detectCategories, hm, hc, ha, hg]

/-- C1, counterexample: with schema keys `brand`, `model`, `storage` and
input `{"brand": "Apple", "color": "blue"}`, validation-enabled direct
configuration does not return a success outcome at all: the request fails
with the HTTP 400 payload (which lists the invalid key and the error naming
it), so no `facets` echo is returned. -/
theorem claim_C1_cex :
    (configure_facets_directly (SchemaFile.present docC1) facetsC1
      true).isOk = false ∧
    configure_facets_directly (SchemaFile.present docC1) facetsC1 true =
      ConfigureResult.badRequest
        ⟨"Invalid facet configuration", ["color"], [unknownKeyMsg "color"]⟩ :=
  ⟨rfl, rfl⟩

/-- C1, amended: on a well-formed schema document, every input key is
classified valid exactly when it is a schema key; when at least one key is
invalid (validation enabled), the request fails with the HTTP 400 payload
listing exactly the invalid keys in input order together with an error
message naming each offending key — rather than returning a success outcome;
the success response echoing the input facets unchanged is returned exactly
when every key is valid. -/
theorem claim_C1 (doc : Json) (facets : Facets)
    (_hdoc : schemaDocOk doc = true) :
    (let ks := facets.map Prod.fst
     let invalid := ks.filter (fun k => !(allValidKeys doc).contains k)
     ((invalid ≠ [] →
        configure_facets_directly (SchemaFile.present doc) facets true =
          ConfigureResult.badRequest
            ⟨"Invalid facet configuration", invalid,
             invalid.map unknownKeyMsg⟩) ∧
      (invalid = [] →
        configure_facets_directly (SchemaFile.present doc) facets true =
          ConfigureResult.ok
            { success := true
              facets := facets
              validation_errors := none
              facet_count := facets.length
              valid_facets :=
                some (ks.filter (fun k => (allValidKeys doc).contains k))
              invalid_facets := some [] }))) := by
  intro ks invalid
  constructor
  · intro hne
    unfold configure_facets_directly
    have : invalid.isEmpty = false := by
      cases hi : invalid.isEmpty
      · rfl
      · exact absurd (List.isEmpty_iff.mp hi) hne
    simp only [if_pos rfl]
    simp [ks, invalid] at this ⊢
    simp [this]
  · intro heq
    unfold configure_facets_directly
    simp only [ks, invalid] at heq
    simp only [heq]
    simp

end SmartMatch

namespace SmartMatch

/-- C1, witness: the amended statement at the schema/input pair of the spec
(where the `color` key is invalid, so the request fails with the 400
payload). -/
theorem claim_C1_witness :
    schemaDocOk docC1 = true ∧
    (facetsC1.map Prod.fst).filter
      (fun k => !(allValidKeys docC1).contains k) ≠ [] ∧
    configure_facets_directly (SchemaFile.present docC1) facetsC1 true =
      ConfigureResult.badRequest
        ⟨"Invalid facet configuration", ["color"], [unknownKeyMsg "color"]⟩ := by
  refine ⟨rfl, by decide, ?_⟩
  exact (claim_C1 docC1 facetsC1 rfl).1 (by decide)

/-- C8: the batch operation returns exactly one result per input query, in
input order; each item echoes its own query and is marked failed exactly when
that query's own pipeline (completion or interpretation) failed — so one
item's failure never aborts its siblings. -/
theorem claim_C8 (complete : Completion) (includeMetadata : Bool)
    (queries : List (List Char)) (i : Nat) (q : List Char)
    (h : queries[i]? = some q) :
    (parse_queries_batch complete includeMetadata queries).results.length =
      queries.length ∧
    (parse_queries_batch complete includeMetadata queries).results[i]? =
      some (batchItemFor complete includeMetadata q) ∧
    (batchItemFor complete includeMetadata q).queryOf = q ∧
    (batchItemFor complete includeMetadata q).isSuccess =
      (parse_query complete q).isOk := by
  refine ⟨?_, ?_, batchItemFor_queryOf complete includeMetadata q,
    batchItemFor_isSuccess complete includeMetadata q⟩
  · simp [parse_queries_batch]
  · simp [parse_queries_batch, List.getElem?_map, h]

/-- C8, witness: a batch of 3 queries whose second query fails at completion
still yields 3 results; item 2 is marked failed, items 1 and 3 succeeded. -/
theorem claim_C8_witness :
    queriesC8[1]? = some "Samsung Galaxy S21".toList ∧
    (parse_queries_batch completeC8 false queriesC8).results.length =
      queriesC8.length ∧
    (parse_queries_batch completeC8 false queriesC8).results[1]? =
      some (batchItemFor completeC8 false "Samsung Galaxy S21".toList) ∧
    (batchItemFor completeC8 false "Samsung Galaxy S21".toList).isSuccess =
      false ∧
    (batchItemFor completeC8 false "iPhone 13".toList).isSuccess = true ∧
    (batchItemFor completeC8 false "PS5 games".toList).isSuccess = true := by
  have h := claim_C8 completeC8 false queriesC8 1
    "Samsung Galaxy S21".toList rfl
  exact ⟨rfl, h.1, h.2.1, (h.2.2.2).trans rfl, rfl, rfl⟩

end SmartMatch
